import Mathlib

/-!
Shallow embedding of the text post-processing logic of MoneyPrinter
(src/gpt.py): generate_script, get_search_terms and generate_metadata.

The completion backend (g4f.ChatCompletion.create) is external I/O and is
modelled as an oracle: each embedded function takes the raw backend response
(or, where the call itself can fail, an Except value) as a parameter, and the
embedding covers everything the function does with that response.  Python
exceptions are modelled with Except PyErr; Python values produced by
json.loads are modelled with PyVal.
-/

/-- A Python value as produced by json.loads on the JSON fragments this
module deals with: strings, integers and arrays. -/
inductive PyVal where
  | str : String → PyVal
  | int : Int → PyVal
  | list : List PyVal → PyVal

/-- A Python exception, as coarse as the embedding needs: a JSON decode
failure or a TypeError. -/
inductive PyErr where
  | jsonDecodeError : PyErr
  | typeError : PyErr
deriving DecidableEq

/-- Model of the Python expression s.replace(c, ""): every occurrence of the
single character c is removed. -/
def py_remove_char (c : Char) (l : List Char) : List Char :=
  l.filter (fun a => a ≠ c)

/-- Index of the first occurrence of c, if any. -/
def firstIdx (c : Char) : List Char → Option Nat
  | [] => none
  | a :: rest => if a = c then some 0 else (firstIdx c rest).map (fun n => n + 1)

/-- Index of the last occurrence of c, if any. -/
def lastIdx (c : Char) : List Char → Option Nat
  | [] => none
  | a :: rest =>
      match lastIdx c rest with
      | some k => some (k + 1)
      | none => if a = c then some 0 else none

/-- One line of the greedy substitution: the regex matches from the first
opening character to the last closing character of the line (the dot of the
pattern never matches a newline, so a match stays within one line); with no
such pair the line is unchanged. -/
def subLine (op cl : Char) (line : List Char) : List Char :=
  match firstIdx op line, lastIdx cl line with
  | some i, some j => if i < j then line.take i ++ line.drop (j + 1) else line
  | _, _ => line

/-- One line of findall for the same greedy pattern: the matched substring,
running from the first opening character to the last closing character of the
line, if the pair exists. -/
def matchLine (op cl : Char) (line : List Char) : Option (List Char) :=
  match firstIdx op line, lastIdx cl line with
  | some i, some j => if i < j then some ((line.drop i).take (j + 1 - i)) else none
  | _, _ => none

/-- Split a character list at newline characters. -/
def splitOnNl : List Char → List (List Char)
  | [] => [[]]
  | c :: cs =>
      if c = '\n' then [] :: splitOnNl cs
      else
        match splitOnNl cs with
        | [] => [[c]]
        | l :: ls => (c :: l) :: ls

/-- Rejoin the pieces produced by splitOnNl with newline characters. -/
def joinNl : List (List Char) → List Char
  | [] => []
  | [l] => l
  | l :: ls => l ++ '\n' :: joinNl ls

/-- Model of re.sub for the greedy bracket pattern used by generate_script:
the pattern cannot cross a newline, so the substitution acts on each
newline-delimited line independently, and on a line it deletes everything
from the first opening character to the last closing character. -/
def re_sub_core (op cl : Char) (s : List Char) : List Char :=
  joinNl ((splitOnNl s).map (subLine op cl))

/-- Model of re.findall for the same greedy bracket pattern: at most one
match per newline-delimited line, from the first opening character to the
last closing character of that line. -/
def re_findall_core (op cl : Char) (s : List Char) : List String :=
  (splitOnNl s).filterMap (fun l => (matchLine op cl l).map String.mk)

/-- The findall call of get_search_terms, over the square-bracket pattern. -/
def re_findall_bracket (s : String) : List String :=
  re_findall_core '[' ']' s.data

/-- JSON insignificant whitespace. -/
def jsonWs (c : Char) : Bool :=
  c = ' ' || c = '\t' || c = '\n' || c = '\r'

/-- Skip JSON whitespace. -/
def skipWs (l : List Char) : List Char :=
  l.dropWhile jsonWs

/-- A JSON escape character and the character it denotes. -/
def escChar (e : Char) : Option Char :=
  if e = 'n' then some '\n'
  else if e = 't' then some '\t'
  else if e = 'r' then some '\r'
  else if e = '"' then some '"'
  else if e = '\\' then some '\\'
  else if e = '/' then some '/'
  else none

/-- Parse the body of a JSON string after the opening quote, returning the
decoded characters and the remainder after the closing quote. -/
def parseStrChars : List Char → Option (List Char × List Char)
  | [] => none
  | '"' :: rest => some ([], rest)
  | '\\' :: rest =>
      match rest with
      | [] => none
      | e :: rest2 =>
          match escChar e with
          | none => none
          | some c =>
              match parseStrChars rest2 with
              | none => none
              | some (s, r) => some (c :: s, r)
  | c :: rest =>
      match parseStrChars rest with
      | none => none
      | some (s, r) => some (c :: s, r)

/-- Split off a maximal leading run of decimal digits. -/
def takeDigits (l : List Char) : List Char × List Char :=
  (l.takeWhile Char.isDigit, l.dropWhile Char.isDigit)

/-- Numeric value of a run of decimal digits. -/
def digitsVal (ds : List Char) : Nat :=
  ds.foldl (fun a c => a * 10 + (c.toNat - 48)) 0

mutual

/-- Fuel-indexed recursive-descent parser for the JSON fragment this module
exchanges with the backend: strings, integers and arrays. -/
def parseVal : Nat → List Char → Option (PyVal × List Char)
  | 0, _ => none
  | fuel + 1, cs =>
      match skipWs cs with
      | [] => none
      | '"' :: rest =>
          match parseStrChars rest with
          | some (s, r) => some (PyVal.str (String.mk s), r)
          | none => none
      | '[' :: rest =>
          match skipWs rest with
          | ']' :: r2 => some (PyVal.list [], r2)
          | other =>
              match parseItems fuel other with
              | some (vs, r2) => some (PyVal.list vs, r2)
              | none => none
      | '-' :: rest =>
          match takeDigits rest with
          | ([], _) => none
          | (ds, r) => some (PyVal.int (-(digitsVal ds : Int)), r)
      | c :: rest =>
          if c.isDigit then
            match takeDigits (c :: rest) with
            | (ds, r) => some (PyVal.int (digitsVal ds), r)
          else none

/-- Parse the comma-separated items of a non-empty JSON array, up to and
including the closing square bracket. -/
def parseItems : Nat → List Char → Option (List PyVal × List Char)
  | 0, _ => none
  | fuel + 1, cs =>
      match parseVal fuel cs with
      | none => none
      | some (v, r) =>
          match skipWs r with
          | ',' :: r2 =>
              match parseItems fuel r2 with
              | some (vs, r3) => some (v :: vs, r3)
              | none => none
          | ']' :: r2 => some ([v], r2)
          | _ => none

end

/-- Model of Python json.loads applied to a string: parse one JSON value and
require that only whitespace follows it; anything else raises a decode
error.  (The model covers the grammar fragment relevant here: strings,
integers and arrays.) -/
def json_loads_str (s : String) : Except PyErr PyVal :=
  match parseVal (s.length + 2) s.data with
  | some (v, rest) =>
      if skipWs rest = [] then Except.ok v else Except.error PyErr.jsonDecodeError
  | none => Except.error PyErr.jsonDecodeError

/-- Model of Python json.loads applied to a list argument, as the fallback
path of get_search_terms does: json.loads requires str, bytes or bytearray
and raises a TypeError for a list, whatever its contents. -/
def json_loads_list (_found : List String) : Except PyErr PyVal :=
  Except.error PyErr.typeError

/-- The element-wise part of str.join: every element must itself be a
string, otherwise a TypeError is raised. -/
def joinStrs : List PyVal → Except PyErr (List String)
  | [] => Except.ok []
  | PyVal.str s :: rest =>
      match joinStrs rest with
      | Except.ok ss => Except.ok (s :: ss)
      | Except.error e => Except.error e
  | _ :: _ => Except.error PyErr.typeError

/-- Model of the Python expression sep.join(x) as used in the final print of
get_search_terms: a list joins its elements, raising a TypeError on a
non-string element; a string iterates over its characters; an integer is not
iterable and raises a TypeError. -/
def py_join (sep : String) : PyVal → Except PyErr String
  | PyVal.list items =>
      match joinStrs items with
      | Except.ok ss => Except.ok (String.intercalate sep ss)
      | Except.error e => Except.error e
  | PyVal.str s =>
      Except.ok (String.intercalate sep (s.data.map (fun c => String.mk [c])))
  | PyVal.int _ => Except.error PyErr.typeError

/-- The cleaning pipeline of generate_script on a non-empty response, in
source order: remove every asterisk, remove every hash, apply the greedy
square-bracket substitution, then the greedy parenthesis substitution. -/
def clean_chars (l : List Char) : List Char :=
  re_sub_core '(' ')' (re_sub_core '[' ']'
    (py_remove_char '#' (py_remove_char '*' l)))

/-- Embedding of generate_script (src/gpt.py lines 52-64), from the backend
response onward: a truthy (non-empty) response is cleaned and returned with
a trailing space appended; an empty response yields none. -/
def generate_script_run (response : String) : Option String :=
  if response = "" then none
  else some (String.mk (clean_chars response.data ++ [' ']))

/-- Embedding of get_search_terms (src/gpt.py lines 122-141), from the
backend response onward: parse the response as JSON; on failure, run findall
for the bracket pattern and hand the resulting Python list straight to
json.loads, as the source does.  The parsed value then flows through the
join of the final print before being returned; amount only appears in prompt
and print text and does not affect the result. -/
def get_search_terms_run (amount : Nat) (response : String) : Except PyErr PyVal :=
  let loaded :=
    match json_loads_str response with
    | Except.ok v => Except.ok v
    | Except.error _ => json_loads_list (re_findall_bracket response)
  match loaded with
  | Except.error e => Except.error e
  | Except.ok search_terms =>
      match py_join ", " search_terms with
      | Except.error e => Except.error e
      | Except.ok _ => Except.ok search_terms

/-- get_search_terms including its backend call: the completion itself may
raise, and any such exception propagates. -/
def get_search_terms_full (amount : Nat) (completion : Except PyErr String) :
    Except PyErr PyVal :=
  match completion with
  | Except.error e => Except.error e
  | Except.ok response => get_search_terms_run amount response

/-- Embedding of generate_metadata (src/gpt.py lines 143-187): two
completion calls whose raw outputs are trimmed of surrounding whitespace
with no other cleanup, then delegation to get_search_terms with a fixed
amount of 6; there is no exception handling of its own. -/
def generate_metadata_run
    (title_completion description_completion search_completion : Except PyErr String) :
    Except PyErr (String × String × PyVal) :=
  match title_completion with
  | Except.error e => Except.error e
  | Except.ok title_response =>
      match description_completion with
      | Except.error e => Except.error e
      | Except.ok description_response =>
          match get_search_terms_full 6 search_completion with
          | Except.error e => Except.error e
          | Except.ok keywords =>
              Except.ok (title_response.trim, description_response.trim, keywords)

example : generate_script_run "x[a]y[b]z" = some "xz " := by rfl
example : generate_script_run "a[b]\nc[d]e" = some "a\nce " := by rfl
example : generate_script_run "a*b#c" = some "abc " := by rfl
example : generate_script_run "" = none := by rfl
example : json_loads_str "[\"a\",\"b\",\"c\"]" =
    Except.ok (PyVal.list [PyVal.str "a", PyVal.str "b", PyVal.str "c"]) := by rfl
example : json_loads_str "[1, 2]" =
    Except.ok (PyVal.list [PyVal.int 1, PyVal.int 2]) := by rfl
example : json_loads_str "Sure! [\"x\",\"y\"]" =
    Except.error PyErr.jsonDecodeError := by rfl
example : re_findall_bracket "Sure! [\"x\",\"y\"]" = ["[\"x\",\"y\"]"] := by rfl
example : re_findall_bracket "no terms found" = [] := by rfl
example : get_search_terms_run 2 "Sure! [\"x\",\"y\"]" =
    Except.error PyErr.typeError := by rfl
example : get_search_terms_run 3 "[\"a\",\"b\",\"c\"]" =
    Except.ok (PyVal.list [PyVal.str "a", PyVal.str "b", PyVal.str "c"]) := by rfl
example : get_search_terms_run 2 "[1, 2]" = Except.error PyErr.typeError := by rfl

/-! Helper lemmas. -/

theorem splitOnNl_ne_nil (l : List Char) : splitOnNl l ≠ [] := by
  cases l with
  | nil => simp [splitOnNl]
  | cons c cs =>
      rw [splitOnNl]
      by_cases hc : c = '\n'
      · simp [hc]
      · simp only [if_neg hc]
        cases splitOnNl cs <;> simp

theorem splitOnNl_no_newline {l : List Char} (h : '\n' ∉ l) : splitOnNl l = [l] := by
  induction l with
  | nil => rfl
  | cons c cs ih =>
      have hc : c ≠ '\n' := fun hc => h (hc ▸ List.mem_cons_self c cs)
      have hcs : '\n' ∉ cs := fun hm => h (List.mem_cons_of_mem c hm)
      rw [splitOnNl, if_neg hc, ih hcs]

theorem joinNl_single (l : List Char) : joinNl [l] = l := rfl

theorem joinNl_cons_cons (l l2 : List Char) (ls : List (List Char)) :
    joinNl (l :: l2 :: ls) = l ++ '\n' :: joinNl (l2 :: ls) := rfl

theorem mem_subLine {op cl a : Char} {l : List Char} (h : a ∈ subLine op cl l) :
    a ∈ l := by
  unfold subLine at h
  split at h
  · split at h
    · rcases List.mem_append.mp h with ht | hd
      · exact List.take_subset _ l ht
      · exact List.drop_subset _ l hd
    · exact h
  · exact h

theorem mem_of_mem_splitOnNl {a : Char} {l p : List Char}
    (hp : p ∈ splitOnNl l) (ha : a ∈ p) : a ∈ l := by
  induction l generalizing p with
  | nil =>
      simp [splitOnNl] at hp
      subst hp
      simp at ha
  | cons c cs ih =>
      rw [splitOnNl] at hp
      by_cases hc : c = '\n'
      · rw [if_pos hc] at hp
        rcases List.mem_cons.mp hp with h1 | h2
        · subst h1; simp at ha
        · exact List.mem_cons_of_mem c (ih h2 ha)
      · rw [if_neg hc] at hp
        cases hs : splitOnNl cs with
        | nil => exact absurd hs (splitOnNl_ne_nil cs)
        | cons m ms =>
            rw [hs] at hp
            rcases List.mem_cons.mp hp with h1 | h2
            · subst h1
              rcases List.mem_cons.mp ha with h3 | h4
              · exact h3 ▸ List.mem_cons_self c cs
              · exact List.mem_cons_of_mem c
                  (ih (hs ▸ List.mem_cons_self m ms) h4)
            · exact List.mem_cons_of_mem c
                (ih (hs ▸ List.mem_cons_of_mem m h2) ha)

theorem mem_joinNl {a : Char} {ls : List (List Char)} (h : a ∈ joinNl ls) :
    (∃ p ∈ ls, a ∈ p) ∨ a = '\n' := by
  induction ls with
  | nil => simp [joinNl] at h
  | cons l rest ih =>
      cases rest with
      | nil =>
          exact Or.inl ⟨l, List.mem_cons_self l [], h⟩
      | cons l2 rest2 =>
          rw [joinNl_cons_cons] at h
          rcases List.mem_append.mp h with h1 | h2
          · exact Or.inl ⟨l, List.mem_cons_self l (l2 :: rest2), h1⟩
          · rcases List.mem_cons.mp h2 with h3 | h4
            · exact Or.inr h3
            · rcases ih h4 with ⟨p, hp, hap⟩ | hnl
              · exact Or.inl ⟨p, List.mem_cons_of_mem l hp, hap⟩
              · exact Or.inr hnl

theorem mem_re_sub_core {op cl a : Char} {s : List Char}
    (h : a ∈ re_sub_core op cl s) : a ∈ s ∨ a = '\n' := by
  unfold re_sub_core at h
  rcases mem_joinNl h with ⟨p, hp, hap⟩ | hnl
  · rcases List.mem_map.mp hp with ⟨q, hq, rfl⟩
    exact Or.inl (mem_of_mem_splitOnNl hq (mem_subLine hap))
  · exact Or.inr hnl

theorem not_mem_py_remove_char (c : Char) (l : List Char) :
    c ∉ py_remove_char c l := by
  intro h
  rcases List.mem_filter.mp h with ⟨_, hne⟩
  simp at hne

theorem mem_py_remove_char {c d : Char} {l : List Char}
    (h : d ∈ py_remove_char c l) : d ∈ l :=
  (List.mem_filter.mp h).1

theorem joinStrs_map_str (terms : List String) :
    joinStrs (terms.map PyVal.str) = Except.ok terms := by
  induction terms with
  | nil => rfl
  | cons t rest ih => simp [joinStrs, ih]

theorem joinStrs_error {items : List PyVal}
    (h : ∃ v ∈ items, ∀ s, v ≠ PyVal.str s) :
    joinStrs items = Except.error PyErr.typeError := by
  induction items with
  | nil => rcases h with ⟨v, hv, _⟩; simp at hv
  | cons v rest ih =>
      rcases h with ⟨w, hw, hws⟩
      rcases List.mem_cons.mp hw with h1 | h2
      · subst h1
        cases w with
        | str s => exact absurd rfl (hws s)
        | int n => rfl
        | list l => rfl
      · cases v with
        | str s => simp [joinStrs, ih ⟨w, h2, hws⟩]
        | int n => rfl
        | list l => rfl

theorem not_mem_clean_chars {c : Char} (hstar : c = '*' ∨ c = '#')
    (l : List Char) : c ∉ clean_chars l := by
  intro h
  have hnl : c ≠ '\n' := by rcases hstar with h1 | h1 <;> simp [h1]
  rcases mem_re_sub_core h with h2 | h2
  · rcases mem_re_sub_core h2 with h3 | h3
    · rcases hstar with h1 | h1
      · subst h1
        exact not_mem_py_remove_char '*' l
          (mem_py_remove_char h3)
      · subst h1
        exact not_mem_py_remove_char '#' (py_remove_char '*' l) h3
    · exact hnl h3
  · exact hnl h2

/-! Claim theorems. -/

/-- C3: for every backend response, generate_script either returns a string
containing no asterisk and no hash character, or returns none. -/
theorem generate_script_no_star_no_hash (response s : String)
    (h : generate_script_run response = some s) :
    '*' ∉ s.data ∧ '#' ∉ s.data := by
  unfold generate_script_run at h
  by_cases hr : response = ""
  · rw [if_pos hr] at h; exact absurd h (by simp)
  · rw [if_neg hr] at h
    have hs := Option.some.inj h
    subst hs
    refine ⟨fun hm => ?_, fun hm => ?_⟩
    · rcases List.mem_append.mp hm with h1 | h1
      · exact not_mem_clean_chars (Or.inl rfl) _ h1
      · simp at h1
    · rcases List.mem_append.mp hm with h1 | h1
      · exact not_mem_clean_chars (Or.inr rfl) _ h1
      · simp at h1

/-- C3 witness: at the response with markdown characters, the returned
script is free of them. -/
theorem generate_script_no_star_no_hash_witness :
    '*' ∉ ("ab " : String).data ∧ '#' ∉ ("ab " : String).data :=
  generate_script_no_star_no_hash "a*b#" "ab " (by rfl)

/-- C4 (amended): on a newline-free line the bracket substitution of
generate_script is greedy across the whole line: with the first opening
character at i and the last closing character at j, i < j, everything from i
to j is removed at once, however many disjoint groups lie between; on a
multi-line response the same removal applies to each newline-delimited line
separately, not across the whole string. -/
theorem re_sub_core_greedy_single_line (op cl : Char) (l : List Char) (i j : Nat)
    (hnl : '\n' ∉ l) (hi : firstIdx op l = some i) (hj : lastIdx cl l = some j)
    (hij : i < j) :
    re_sub_core op cl l = l.take i ++ l.drop (j + 1) := by
  unfold re_sub_core
  rw [splitOnNl_no_newline hnl]
  simp only [List.map_cons, List.map_nil]
  rw [joinNl_single]
  simp [subLine, hi, hj, hij]

/-- C4 witness: two disjoint groups on one line are removed in one greedy
span, from the first opening bracket to the last closing bracket. -/
theorem re_sub_core_greedy_single_line_witness :
    re_sub_core '[' ']' ("x[a]y[b]z".data) =
      ("x[a]y[b]z".data.take 1) ++ ("x[a]y[b]z".data.drop 8) :=
  re_sub_core_greedy_single_line '[' ']' _ 1 7 (by decide) (by rfl) (by rfl)
    (by decide)

/-- C4 counterexample: on a response whose bracket groups lie on different
lines, generate_script does not delete everything between the first opening
bracket and the last closing bracket of the whole string (which would give
"ae "): each line is stripped separately. -/
theorem script_bracket_strip_not_whole_string :
    generate_script_run "a[b]\nc[d]e" = some "a\nce " ∧
    generate_script_run "a[b]\nc[d]e" ≠ some "ae " := by
  refine ⟨rfl, fun hc => ?_⟩
  rw [show generate_script_run "a[b]\nc[d]e" = some "a\nce " from rfl] at hc
  exact absurd (Option.some.inj hc) (by decide)

/-- C7: generate_script is total in the embedding (the source never raises):
an empty response yields none, and a non-empty response yields exactly the
cleaned text with a single trailing space appended. -/
theorem generate_script_total (response : String) :
    (response = "" → generate_script_run response = none) ∧
    (response ≠ "" →
      generate_script_run response =
        some (String.mk (clean_chars response.data) ++ " ")) := by
  constructor
  · intro h; simp [generate_script_run, h]
  · intro h
    unfold generate_script_run
    rw [if_neg h]
    rfl

/-- C7 witness: the empty response gives none and a concrete non-empty one
gives the cleaned text plus a trailing space. -/
theorem generate_script_total_witness :
    generate_script_run "" = none ∧
    generate_script_run "hi" = some (String.mk (clean_chars "hi".data) ++ " ") :=
  ⟨(generate_script_total "").1 rfl, (generate_script_total "hi").2 (by decide)⟩

/-- C5: a response that parses as a JSON array of strings is returned
exactly, in content and order, whatever the requested amount: no filtering,
no truncation to amount, no word-count validation. -/
theorem get_search_terms_wellformed_array (amount : Nat) (response : String)
    (terms : List String)
    (h : json_loads_str response = Except.ok (PyVal.list (terms.map PyVal.str))) :
    get_search_terms_run amount response =
      Except.ok (PyVal.list (terms.map PyVal.str)) := by
  unfold get_search_terms_run
  rw [h]
  simp [py_join, joinStrs_map_str terms]

/-- C5 witness: the three-element array response is returned unchanged even
though the requested amount differs from three. -/
theorem get_search_terms_wellformed_array_witness :
    get_search_terms_run 5 "[\"a\",\"b\",\"c\"]" =
      Except.ok (PyVal.list (["a", "b", "c"].map PyVal.str)) :=
  get_search_terms_wellformed_array 5 _ ["a", "b", "c"] (by rfl)

/-- C9: whenever the initial JSON parse fails, get_search_terms raises,
whether or not findall extracts an array: the fallback hands the match list
itself, not a string, to json.loads, which raises a TypeError for any list. -/
theorem get_search_terms_fallback_always_raises (amount : Nat) (response : String)
    (e : PyErr) (h : json_loads_str response = Except.error e) :
    get_search_terms_run amount response = Except.error PyErr.typeError := by
  unfold get_search_terms_run
  rw [h]
  rfl

/-- C9 witness: the prose-wrapped array response fails the initial parse and
the function raises even though findall does extract the array. -/
theorem get_search_terms_fallback_always_raises_witness :
    get_search_terms_run 2 "Sure! [\"x\",\"y\"]" = Except.error PyErr.typeError :=
  get_search_terms_fallback_always_raises 2 _ PyErr.jsonDecodeError (by rfl)

/-- C2 (amended): when the initial parse fails and findall finds no
bracket-delimited array, get_search_terms raises rather than returning an
empty sequence, and nothing catches the error internally. -/
theorem get_search_terms_no_array_raises (amount : Nat) (response : String)
    (e : PyErr) (h1 : json_loads_str response = Except.error e)
    (h2 : re_findall_bracket response = []) :
    get_search_terms_run amount response = Except.error PyErr.typeError := by
  unfold get_search_terms_run
  rw [h1]
  rfl

/-- C2 witness: a plain-text response with no array at all makes the
function raise. -/
theorem get_search_terms_no_array_raises_witness :
    get_search_terms_run 4 "no terms found" = Except.error PyErr.typeError :=
  get_search_terms_no_array_raises 4 _ PyErr.jsonDecodeError (by rfl) (by rfl)

/-- C2 counterexample: the missing-array case is not the only propagated
failure: on this response the initial parse fails, findall does find an
array, and get_search_terms still raises. -/
theorem get_search_terms_not_only_failure :
    json_loads_str "Sure! [\"x\",\"y\"]" = Except.error PyErr.jsonDecodeError ∧
    re_findall_bracket "Sure! [\"x\",\"y\"]" ≠ [] ∧
    get_search_terms_run 2 "Sure! [\"x\",\"y\"]" = Except.error PyErr.typeError :=
  ⟨rfl, by decide, rfl⟩

/-- C10: a response that parses as a JSON array containing a non-string
element makes get_search_terms raise at the join of the final print, even
though the JSON parse succeeded. -/
theorem get_search_terms_nonstring_element_raises (amount : Nat)
    (response : String) (items : List PyVal)
    (h : json_loads_str response = Except.ok (PyVal.list items))
    (hbad : ∃ v ∈ items, ∀ s, v ≠ PyVal.str s) :
    get_search_terms_run amount response = Except.error PyErr.typeError := by
  unfold get_search_terms_run
  rw [h]
  simp [py_join, joinStrs_error hbad]

/-- C10 witness: the integer array parses but the function raises. -/
theorem get_search_terms_nonstring_element_raises_witness :
    get_search_terms_run 2 "[1, 2]" = Except.error PyErr.typeError :=
  get_search_terms_nonstring_element_raises 2 _ [PyVal.int 1, PyVal.int 2]
    (by rfl)
    ⟨PyVal.int 1, List.mem_cons_self _ _, fun s h => PyVal.noConfusion h⟩

/-- C1: evaluation at the failing input: findall does extract the
prose-embedded array, and that extracted string on its own would parse, yet
get_search_terms raises a TypeError, because the fallback passes the whole
match list, not the matched string, to json.loads; the extraction the claim
describes never completes. -/
theorem get_search_terms_prose_extraction_fails :
    re_findall_bracket "Sure! [\"x\",\"y\"]" = ["[\"x\",\"y\"]"] ∧
    json_loads_str "[\"x\",\"y\"]" =
      Except.ok (PyVal.list [PyVal.str "x", PyVal.str "y"]) ∧
    get_search_terms_run 2 "Sure! [\"x\",\"y\"]" = Except.error PyErr.typeError :=
  ⟨rfl, rfl, rfl⟩

/-- C6: when both completions succeed, generate_metadata returns their raw
outputs trimmed of surrounding whitespace as title and description, with no
asterisk, hash or bracket stripping, and the keywords are exactly the result
of the delegated search-term call with the fixed amount 6. -/
theorem generate_metadata_components (tr dr : String)
    (search_completion : Except PyErr String) (kw : PyVal)
    (h : get_search_terms_full 6 search_completion = Except.ok kw) :
    generate_metadata_run (Except.ok tr) (Except.ok dr) search_completion =
      Except.ok (tr.trim, dr.trim, kw) := by
  unfold generate_metadata_run
  rw [h]

/-- C6 witness: concrete completions, with markdown characters surviving in
the title and only the whitespace trimmed. -/
theorem generate_metadata_components_witness :
    generate_metadata_run (Except.ok " My *Title* ") (Except.ok "Desc\n")
        (Except.ok "[\"k\"]") =
      Except.ok (" My *Title* ".trim, "Desc\n".trim, PyVal.list [PyVal.str "k"]) :=
  generate_metadata_components _ _ _ (PyVal.list [PyVal.str "k"]) (by rfl)

/-- C8: generate_metadata catches nothing: it fails exactly when its first
completion, its second completion, or the delegated search-term call fails,
and the first such error propagates unmodified; with all three succeeding it
returns the triple. -/
theorem generate_metadata_error_propagation (tc dc sc : Except PyErr String) :
    (∀ e, tc = Except.error e →
      generate_metadata_run tc dc sc = Except.error e) ∧
    (∀ t e, tc = Except.ok t → dc = Except.error e →
      generate_metadata_run tc dc sc = Except.error e) ∧
    (∀ t d e, tc = Except.ok t → dc = Except.ok d →
      get_search_terms_full 6 sc = Except.error e →
      generate_metadata_run tc dc sc = Except.error e) ∧
    (∀ t d kw, tc = Except.ok t → dc = Except.ok d →
      get_search_terms_full 6 sc = Except.ok kw →
      generate_metadata_run tc dc sc = Except.ok (t.trim, d.trim, kw)) := by
  refine ⟨?_, ?_, ?_, ?_⟩
  · intro e h; subst h; rfl
  · intro t e h1 h2; subst h1; subst h2; rfl
  · intro t d e h1 h2 h3; subst h1; subst h2
    unfold generate_metadata_run
    rw [h3]
  · intro t d kw h1 h2 h3; subst h1; subst h2
    unfold generate_metadata_run
    rw [h3]

/-- C8 witness: a failing first completion propagates its error unmodified. -/
theorem generate_metadata_error_propagation_witness :
    generate_metadata_run (Except.error PyErr.typeError) (Except.ok "d")
        (Except.ok "[]") = Except.error PyErr.typeError :=
  (generate_metadata_error_propagation _ _ _).1 PyErr.typeError rfl
